import Mathlib

/-!
Shallow embedding of the qualagent-bridge analysis core, translated from the
Python sources under src/, together with theorems settling the frozen claims
about the orchestration state machine, parameter extraction, theme
consolidation, caching, semantic memory and sentiment routing.
-/

namespace QualAgent

/-- Parameter dictionaries (Python dict[str, str] as used by the tool layer),
modelled as association lists with string keys and values. -/
abbrev ParamMap := List (String × String)

/-- Python substring containment (the `in` operator on strings): pat occurs
contiguously inside s. -/
def strContains (s pat : String) : Bool :=
  let sl := s.toList
  let pl := pat.toList
  (List.range (sl.length + 1)).any (fun i => pl.isPrefixOf (sl.drop i))

/-- Python str.lower() on the ASCII range: lowercase every character. -/
def pyLower (s : String) : String :=
  String.mk (s.toList.map Char.toLower)

/-! ### Tool-name inference (src/agents/tool_manager.py, extract_tool_from_response) -/

/-- Embedding of tool_manager.extract_tool_from_response: lowercase the
response text and test keywords in the fixed source order, defaulting to
generate_insight. -/
def extract_tool_from_response (response_text : String) : String :=
  let r := pyLower response_text
  if strContains r "document_search" || strContains r "search" then "document_search"
  else if strContains r "generate_insight" || strContains r "insight" then "generate_insight"
  else if strContains r "sentiment_analysis" || strContains r "sentiment" then "sentiment_analysis"
  else if strContains r "theme_cluster" || strContains r "cluster" then "theme_cluster"
  else if strContains r "router" then "llm_router"
  else if strContains r "summarize_memory" then "summarize_memory"
  else "generate_insight"

/-- The keyword priority table stated by the spec, in order: each entry maps a
tool name to the keywords that select it. -/
def toolKeywordPriority : List (String × List String) :=
  [("document_search", ["document_search", "search"]),
   ("generate_insight", ["generate_insight", "insight"]),
   ("sentiment_analysis", ["sentiment_analysis", "sentiment"]),
   ("theme_cluster", ["theme_cluster", "cluster"]),
   ("llm_router", ["router"]),
   ("summarize_memory", ["summarize_memory"])]

/-- First tool of the priority table whose keyword list matches the lowercased
response text, if any. -/
def firstMatchingTool (response_text : String) : Option String :=
  (toolKeywordPriority.find?
    (fun p => p.2.any (fun kw => strContains (pyLower response_text) kw))).map Prod.fst

/-! ### Input normalization (src/agents/data_processor.py, extract_text_data) -/

/-- Metadata attached to a text item: the document id and filename slots. -/
structure ItemMeta where
  document_id : Option String
  filename : Option String
deriving DecidableEq

/-- One input text item: the text and its (possibly missing) metadata dict. -/
structure TextItem where
  text : String
  metadata : Option ItemMeta
deriving DecidableEq

/-- The input mapping shapes accepted by extract_text_data: each field is
present exactly when the corresponding key is present in the Python dict. -/
structure InputData where
  interviews : Option (List TextItem)
  texts : Option (List String)
  documents : Option (List TextItem)
  text : Option String
  metadata : Option ItemMeta
deriving DecidableEq

/-- Post-fill pass of extract_text_data: ensure metadata exists and holds a
document_id and filename, synthesized from the position index when missing. -/
def fillMeta (i : Nat) (item : TextItem) : TextItem :=
  let m := item.metadata.getD ⟨none, none⟩
  { item with metadata := some ⟨some (m.document_id.getD ("doc-" ++ toString i)),
                                some (m.filename.getD ("document-" ++ toString i))⟩ }

/-- Embedding of data_processor.extract_text_data: the elif chain over the
keys interviews, texts, documents, text, followed by the metadata fill loop. -/
def extract_text_data (input : InputData) : List TextItem :=
  let td : List TextItem :=
    match input.interviews with
    | some items => items
    | none =>
      match input.texts with
      | some ts =>
        ts.enum.map (fun p =>
          ⟨p.2, some ⟨some ("text-" ++ toString p.1), some ("text-" ++ toString p.1)⟩⟩)
      | none =>
        match input.documents with
        | some items => items
        | none =>
          match input.text with
          | some t => [⟨t, some (input.metadata.getD ⟨some "main-text", some "main-text"⟩)⟩]
          | none => []
  td.enum.map (fun p => fillMeta p.1 p.2)

/-- C5: tool-name inference is a total deterministic function equal to the
first match over the fixed priority table document_search/search,
generate_insight/insight, sentiment_analysis/sentiment, theme_cluster/cluster,
router, summarize_memory, defaulting to generate_insight on no match; in
particular the response text "I will use theme_cluster to group these" yields
"theme_cluster". -/
theorem extract_tool_priority_spec :
    (∀ r, extract_tool_from_response r = (firstMatchingTool r).getD "generate_insight") ∧
    extract_tool_from_response "I will use theme_cluster to group these" = "theme_cluster" := by
  constructor
  · intro r
    simp only [extract_tool_from_response, firstMatchingTool, toolKeywordPriority,
      List.find?, List.any_cons, List.any_nil, Bool.or_false]
    by_cases h1 : (strContains (pyLower r) "document_search" || strContains (pyLower r) "search") = true
    · simp [h1]
    · simp only [Bool.not_eq_true] at h1
      by_cases h2 : (strContains (pyLower r) "generate_insight" ||
          strContains (pyLower r) "insight") = true
      · simp [h1, h2]
      · simp only [Bool.not_eq_true] at h2
        by_cases h3 : (strContains (pyLower r) "sentiment_analysis" ||
            strContains (pyLower r) "sentiment") = true
        · simp [h1, h2, h3]
        · simp only [Bool.not_eq_true] at h3
          by_cases h4 : (strContains (pyLower r) "theme_cluster" ||
              strContains (pyLower r) "cluster") = true
          · simp [h1, h2, h3, h4]
          · simp only [Bool.not_eq_true] at h4
            by_cases h5 : strContains (pyLower r) "router" = true
            · simp [h1, h2, h3, h4, h5]
            · simp only [Bool.not_eq_true] at h5
              by_cases h6 : strContains (pyLower r) "summarize_memory" = true
              · simp [h1, h2, h3, h4, h5, h6]
              · simp only [Bool.not_eq_true] at h6
                simp [h1, h2, h3, h4, h5, h6]
  · decide

/-- C10: extract_text_data uses the first present key among interviews, texts,
documents, text (an input holding interviews ignores texts entirely); every
returned item carries metadata with a document_id and a filename; and an input
with none of the four keys yields the empty list. -/
theorem extract_text_data_spec :
    (∀ (input : InputData) (ts1 ts2 : Option (List String)), input.interviews.isSome = true →
      extract_text_data { input with texts := ts1 } =
        extract_text_data { input with texts := ts2 }) ∧
    (∀ (input : InputData) (item : TextItem), item ∈ extract_text_data input →
      ∃ m, item.metadata = some m ∧ m.document_id.isSome = true ∧ m.filename.isSome = true) ∧
    extract_text_data ⟨none, none, none, none, none⟩ = [] := by
  refine ⟨?_, ?_, rfl⟩
  · intro input ts1 ts2 h
    cases hi : input.interviews with
    | none => rw [hi] at h; simp at h
    | some items => simp [extract_text_data, hi]
  · intro input item hmem
    simp only [extract_text_data, List.mem_map] at hmem
    obtain ⟨p, _, hp⟩ := hmem
    refine ⟨⟨some ((p.2.metadata.getD ⟨none, none⟩).document_id.getD ("doc-" ++ toString p.1)),
            some ((p.2.metadata.getD ⟨none, none⟩).filename.getD ("document-" ++ toString p.1))⟩,
      ?_, rfl, rfl⟩
    rw [← hp]; rfl

/-- Witness for C10: the priority and fill facts at concrete inputs: an input
holding both interviews and texts equals the same input with texts dropped,
and the item produced from a texts input carries synthesized metadata. -/
theorem extract_text_data_spec_witness :
    extract_text_data ⟨some [⟨"a", none⟩], some ["x"], none, none, none⟩ =
      extract_text_data ⟨some [⟨"a", none⟩], none, none, none, none⟩ ∧
    ∃ m, (⟨"hello", some ⟨some "text-0", some "text-0"⟩⟩ : TextItem).metadata = some m ∧
      m.document_id.isSome = true ∧ m.filename.isSome = true := by
  constructor
  · exact extract_text_data_spec.1 ⟨some [⟨"a", none⟩], some ["x"], none, none, none⟩
      (some ["x"]) none rfl
  · exact extract_text_data_spec.2.1 ⟨none, some ["hello"], none, none, none⟩
      ⟨"hello", some ⟨some "text-0", some "text-0"⟩⟩ (by decide)

/-! ### Cache key generation (src/services/cache.py, CacheService.generate_key) -/

/-- Ordering used to canonicalize keyword fields: by key, ties broken by
value (Python kwargs cannot repeat keys, so on the domain of interest this is
exactly json.dumps sort_keys ordering). -/
def keyLex (p q : String × String) : Prop :=
  p.1 < q.1 ∨ (p.1 = q.1 ∧ p.2 ≤ q.2)

instance : DecidableRel keyLex := fun p q =>
  inferInstanceAs (Decidable (p.1 < q.1 ∨ (p.1 = q.1 ∧ p.2 ≤ q.2)))

instance : IsTrans (String × String) keyLex := by
  constructor
  intro a b c hab hbc
  rcases hab with h1 | ⟨h1, h1v⟩ <;> rcases hbc with h2 | ⟨h2, h2v⟩
  · exact Or.inl (lt_trans h1 h2)
  · exact Or.inl (h2 ▸ h1)
  · exact Or.inl (h1 ▸ h2)
  · exact Or.inr ⟨h1.trans h2, le_trans h1v h2v⟩

instance : IsAntisymm (String × String) keyLex := by
  constructor
  intro a b hab hba
  rcases hab with h1 | ⟨h1, h1v⟩ <;> rcases hba with h2 | ⟨h2, h2v⟩
  · exact absurd h2 (lt_asymm h1)
  · exact absurd h1 (h2 ▸ lt_irrefl _)
  · exact absurd h2 (h1 ▸ lt_irrefl _)
  · exact Prod.ext h1 (le_antisymm h1v h2v)

instance : IsTotal (String × String) keyLex := by
  constructor
  intro a b
  rcases lt_trichotomy a.1 b.1 with h | h | h
  · exact Or.inl (Or.inl h)
  · rcases le_total a.2 b.2 with hv | hv
    · exact Or.inl (Or.inr ⟨h, hv⟩)
    · exact Or.inr (Or.inr ⟨h.symm, hv⟩)
  · exact Or.inr (Or.inl h)

/-- Canonicalization step of generate_key: sort the keyword fields
(json.dumps with sort_keys=True). -/
def canonicalizeFields (ps : ParamMap) : ParamMap :=
  List.insertionSort keyLex ps

/-- Serialization of the canonicalized fields (stand-in for the exact JSON
rendering; the hash below is abstract, so only determinism matters). -/
def serializeFields (ps : ParamMap) : String :=
  String.intercalate "," ((canonicalizeFields ps).map (fun p => p.1 ++ ":" ++ p.2))

/-- Embedding of CacheService.generate_key: canonicalize the fields by
sorting keys, serialize, hash (md5 modelled as an arbitrary function of the
serialized string), and prepend the purpose prefix. -/
def generate_key (hash : String → String) (pre : String) (ps : ParamMap) : String :=
  pre ++ ":" ++ hash (serializeFields ps)

/-- C8: generate_key is order-insensitive: for any hash function, purpose
prefix, and two orderings of the same set of keyword fields (distinct keys,
as Python kwargs guarantee), the produced cache keys are identical. -/
theorem generate_key_order_insensitive (hash : String → String) (pre : String)
    (ps ps' : ParamMap) (hperm : ps.Perm ps') (_hnd : (ps.map Prod.fst).Nodup) :
    generate_key hash pre ps = generate_key hash pre ps' := by
  have hcanon : canonicalizeFields ps = canonicalizeFields ps' := by
    refine List.eq_of_perm_of_sorted
      (((List.perm_insertionSort keyLex ps).trans hperm).trans
        (List.perm_insertionSort keyLex ps').symm)
      (List.sorted_insertionSort keyLex ps) (List.sorted_insertionSort keyLex ps')
  simp [generate_key, serializeFields, hcanon]

/-- Witness for C8: the spec instance generate_key("p", a=1, b=2) =
generate_key("p", b=2, a=1), here with the identity as the hash stand-in. -/
theorem generate_key_order_insensitive_witness :
    generate_key (fun s => s) "p" [("a", "1"), ("b", "2")] =
      generate_key (fun s => s) "p" [("b", "2"), ("a", "1")] :=
  generate_key_order_insensitive (fun s => s) "p" _ _ (by decide) (by decide)

/-! ### Tool execution (src/agents/state_handler.py, execute_tools) -/

/-- Serialized tool output (the raw structured result of a tool run). -/
abbrev ToolResultValue := String

/-- One recorded tool invocation, as appended to tool_results. -/
structure ToolInvocationRec where
  timestamp : String
  tool : String
  params : ParamMap
  result : ToolResultValue
deriving DecidableEq

/-- One analysis step, as appended to analysis_steps by analyze_data. -/
structure AnalysisStep where
  timestamp : String
  analysis : String
  is_final : Bool
deriving DecidableEq

/-- The intermediate_results mapping threaded through the workflow; absent
keys are the Python .get defaults (empty list / absent / false). -/
structure IntermediateResults where
  analysis_steps : List AnalysisStep
  tool_results : List ToolInvocationRec
  next_tool : Option String
  tool_params : ParamMap
  tool_error : Option String
  analysis_complete : Bool
deriving DecidableEq

/-- The agent configuration slice consulted by execute_tools: none means the
max_tool_calls key is absent (default 3). -/
structure AgentConfig where
  max_tool_calls : Option Nat
deriving DecidableEq

/-- The workflow state dict (the parts execute_tools reads and writes). -/
structure WorkflowState where
  intermediate_results : IntermediateResults
  agent_config : AgentConfig
deriving DecidableEq

/-- The tool_map keys of state_handler.execute_tools. -/
def toolMapNames : List String :=
  ["document_search", "generate_insight", "sentiment_analysis", "theme_cluster",
   "llm_router", "summarize_memory"]

/-- Python truthiness of an optional string (None and the empty string are
falsy). -/
def pyTruthyStr : Option String → Bool
  | none => false
  | some s => !s.isEmpty

/-- The in-place mutation analysis_steps[-1]["is_final"] = True. -/
def markLastFinal : List AnalysisStep → List AnalysisStep
  | [] => []
  | [s] => [{ s with is_final := true }]
  | s :: s' :: rest => s :: markLastFinal (s' :: rest)

/-- Embedding of state_handler.execute_tools. The awaited tool_fn.ainvoke
call is modelled by the invoke oracle: ok is a returned result, error is a
raised exception (the unknown-tool ValueError is raised and caught inside,
exactly as in the source try/except). -/
def execute_tools (state : WorkflowState) (now : String)
    (invoke : String → ParamMap → Except String ToolResultValue) : WorkflowState :=
  let ir := state.intermediate_results
  if !pyTruthyStr ir.next_tool then
    { state with intermediate_results := { ir with analysis_complete := true } }
  else
    let nt := ir.next_tool.getD ""
    if toolMapNames.contains nt then
      match invoke nt ir.tool_params with
      | Except.ok result =>
        let tool_results := ir.tool_results ++ [⟨now, nt, ir.tool_params, result⟩]
        let max_tool_calls := state.agent_config.max_tool_calls.getD 3
        let analysis_steps :=
          if tool_results.length ≥ max_tool_calls then markLastFinal ir.analysis_steps
          else ir.analysis_steps
        { state with intermediate_results :=
            { ir with analysis_steps := analysis_steps, tool_results := tool_results } }
      | Except.error e =>
        { state with intermediate_results :=
            { ir with tool_error := some e, analysis_complete := true } }
    else
      { state with intermediate_results :=
          { ir with tool_error := some ("Unknown tool: " ++ nt), analysis_complete := true } }

/-- The is_final flag of the last analysis step (false when there is none). -/
def lastIsFinal (steps : List AnalysisStep) : Bool :=
  match steps.getLast? with
  | none => false
  | some s => s.is_final

theorem markLastFinal_length (l : List AnalysisStep) :
    (markLastFinal l).length = l.length := by
  induction l with
  | nil => rfl
  | cons s rest ih =>
    cases rest with
    | nil => rfl
    | cons s' rest' => simpa [markLastFinal] using ih

theorem lastIsFinal_cons_of_ne_nil (a : AnalysisStep) (l : List AnalysisStep) (h : l ≠ []) :
    lastIsFinal (a :: l) = lastIsFinal l := by
  cases l with
  | nil => exact absurd rfl h
  | cons b l' => simp [lastIsFinal, List.getLast?_cons_cons]

theorem lastIsFinal_markLastFinal (l : List AnalysisStep) (h : l ≠ []) :
    lastIsFinal (markLastFinal l) = true := by
  induction l with
  | nil => exact absurd rfl h
  | cons s rest ih =>
    cases rest with
    | nil => rfl
    | cons s' rest' =>
      have hne : markLastFinal (s' :: rest') ≠ [] := by
        intro hc
        have hlen := markLastFinal_length (s' :: rest')
        rw [hc] at hlen
        simp at hlen
      rw [show markLastFinal (s :: s' :: rest') = s :: markLastFinal (s' :: rest') from rfl,
        lastIsFinal_cons_of_ne_nil s _ hne]
      exact ih (by simp)

/-- C1: on a successful tool execution (the selected tool is known and its
invocation returns a result), execute_tools appends exactly one
ToolInvocation record (the count strictly increases by 1), and afterwards the
last analysis step's is_final flag is true exactly when the tool-result count
has reached max_tool_calls (default 3 when the agent configuration does not
set it). The hypotheses that a last step exists and is not yet final are the
loop invariant under which analyze_data hands off to execute_tools. -/
theorem execute_tools_success_spec (state : WorkflowState) (now : String)
    (invoke : String → ParamMap → Except String ToolResultValue)
    (nt : String) (res : ToolResultValue)
    (hnt : state.intermediate_results.next_tool = some nt)
    (hknown : nt ∈ toolMapNames)
    (hok : invoke nt state.intermediate_results.tool_params = Except.ok res)
    (hsteps : state.intermediate_results.analysis_steps ≠ [])
    (hnotfinal : lastIsFinal state.intermediate_results.analysis_steps = false) :
    (execute_tools state now invoke).intermediate_results.tool_results.length =
      state.intermediate_results.tool_results.length + 1 ∧
    ((lastIsFinal (execute_tools state now invoke).intermediate_results.analysis_steps = true) ↔
      (execute_tools state now invoke).intermediate_results.tool_results.length ≥
        state.agent_config.max_tool_calls.getD 3) := by
  have hne : nt.isEmpty = false := by
    have hall : ∀ n ∈ toolMapNames, n.isEmpty = false := by decide
    exact hall nt hknown
  have htruthy : pyTruthyStr state.intermediate_results.next_tool = true := by
    rw [hnt]; simp [pyTruthyStr, hne]
  have hgetD : state.intermediate_results.next_tool.getD "" = nt := by rw [hnt]; rfl
  have hcontains : toolMapNames.contains nt = true := by
    simpa using hknown
  simp only [execute_tools, htruthy, Bool.not_true, Bool.false_eq_true, if_false, hgetD,
    hcontains, if_true, hok]
  constructor
  · simp
  · by_cases hge : state.intermediate_results.tool_results.length + 1 ≥
        state.agent_config.max_tool_calls.getD 3
    · simpa [hge] using lastIsFinal_markLastFinal _ hsteps
    · simpa [hge] using hnotfinal

/-- Witness for C1: a concrete state with one non-final step, an empty
tool_results list, a known tool and a succeeding invocation: the count becomes
1 and, with the default budget 3, the last step stays non-final. -/
theorem execute_tools_success_spec_witness :
    (execute_tools
        ⟨⟨[⟨"t0", "plan", false⟩], [], some "sentiment_analysis", [], none, false⟩, ⟨none⟩⟩
        "t1" (fun _ _ => Except.ok "ok")).intermediate_results.tool_results.length = 1 ∧
    ((lastIsFinal (execute_tools
        ⟨⟨[⟨"t0", "plan", false⟩], [], some "sentiment_analysis", [], none, false⟩, ⟨none⟩⟩
        "t1" (fun _ _ => Except.ok "ok")).intermediate_results.analysis_steps = true) ↔
      (execute_tools
        ⟨⟨[⟨"t0", "plan", false⟩], [], some "sentiment_analysis", [], none, false⟩, ⟨none⟩⟩
        "t1" (fun _ _ => Except.ok "ok")).intermediate_results.tool_results.length ≥ 3) :=
  execute_tools_success_spec
    ⟨⟨[⟨"t0", "plan", false⟩], [], some "sentiment_analysis", [], none, false⟩, ⟨none⟩⟩
    "t1" (fun _ _ => Except.ok "ok") "sentiment_analysis" "ok"
    rfl (by decide) rfl (by decide) rfl

/-- C2: when the selected tool name is unknown to the tool map, or the tool
invocation raises, execute_tools returns without raising: analysis_steps and
tool_results are left unchanged, tool_error is recorded, and
analysis_complete is forced true. -/
theorem execute_tools_failure_spec (state : WorkflowState) (now : String)
    (invoke : String → ParamMap → Except String ToolResultValue) (nt : String)
    (hnt : state.intermediate_results.next_tool = some nt)
    (hne : nt.isEmpty = false)
    (hfail : nt ∉ toolMapNames ∨
      ∃ e, invoke nt state.intermediate_results.tool_params = Except.error e) :
    (execute_tools state now invoke).intermediate_results.analysis_steps =
      state.intermediate_results.analysis_steps ∧
    (execute_tools state now invoke).intermediate_results.tool_results =
      state.intermediate_results.tool_results ∧
    (execute_tools state now invoke).intermediate_results.tool_error.isSome = true ∧
    (execute_tools state now invoke).intermediate_results.analysis_complete = true := by
  have htruthy : pyTruthyStr state.intermediate_results.next_tool = true := by
    rw [hnt]; simp [pyTruthyStr, hne]
  have hgetD : state.intermediate_results.next_tool.getD "" = nt := by rw [hnt]; rfl
  rcases hfail with hnotin | ⟨e, he⟩
  · simp [execute_tools, htruthy, hgetD, hnotin]
  · by_cases hin : nt ∈ toolMapNames
    · simp [execute_tools, htruthy, hgetD, hin, he]
    · simp [execute_tools, htruthy, hgetD, hin]

/-- Witness for C2: the unknown tool name bogus_tool on a state with one
prior step leaves steps and results untouched and marks the terminal error. -/
theorem execute_tools_failure_spec_witness :
    (execute_tools ⟨⟨[⟨"t0", "plan", false⟩], [], some "bogus_tool", [], none, false⟩, ⟨none⟩⟩
        "t1" (fun _ _ => Except.ok "ok")).intermediate_results.analysis_steps =
      [⟨"t0", "plan", false⟩] ∧
    (execute_tools ⟨⟨[⟨"t0", "plan", false⟩], [], some "bogus_tool", [], none, false⟩, ⟨none⟩⟩
        "t1" (fun _ _ => Except.ok "ok")).intermediate_results.tool_results = [] ∧
    (execute_tools ⟨⟨[⟨"t0", "plan", false⟩], [], some "bogus_tool", [], none, false⟩, ⟨none⟩⟩
        "t1" (fun _ _ => Except.ok "ok")).intermediate_results.tool_error.isSome = true ∧
    (execute_tools ⟨⟨[⟨"t0", "plan", false⟩], [], some "bogus_tool", [], none, false⟩, ⟨none⟩⟩
        "t1" (fun _ _ => Except.ok "ok")).intermediate_results.analysis_complete = true :=
  execute_tools_failure_spec
    ⟨⟨[⟨"t0", "plan", false⟩], [], some "bogus_tool", [], none, false⟩, ⟨none⟩⟩
    "t1" (fun _ _ => Except.ok "ok") "bogus_tool" rfl rfl (Or.inl (by decide))

/-! ### Theme consolidation (src/agents/data_processor.py,
extract_themes_from_results, lines 178-196, and the first-wins duplicate
removal of src/agents/orchestrator.py, _extract_themes_from_results) -/

/-- A quote with optional source dict, as built by the data_processor theme
extraction. -/
structure QuoteRec where
  text : String
  source : Option ParamMap
deriving DecidableEq

/-- A theme dict as built by data_processor.extract_themes_from_results. -/
structure Theme where
  name : String
  description : String
  keywords : List String
  quotes : List QuoteRec
deriving DecidableEq

/-- The merge of a duplicate theme into the existing entry: quotes extend
(when the incoming list is nonempty, per the Python truthiness guard) and
keywords become list(set(existing) updated with incoming) when the incoming
keyword list is nonempty. The Python set gives an unspecified order; dedup of
the concatenation realizes the same duplicate-free set, and only
order-insensitive facts are proved about it. -/
def mergeTheme (existing incoming : Theme) : Theme :=
  let quotes := if incoming.quotes.isEmpty then existing.quotes
                else existing.quotes ++ incoming.quotes
  let keywords := if incoming.keywords.isEmpty then existing.keywords
                  else (existing.keywords ++ incoming.keywords).dedup
  { existing with quotes := quotes, keywords := keywords }

/-- One step of the theme_map loop: a new name is appended, a duplicate name
merges into the existing entry in place. -/
def insertTheme (acc : List Theme) (t : Theme) : List Theme :=
  if acc.any (fun u => u.name == t.name) then
    acc.map (fun u => if u.name == t.name then mergeTheme u t else u)
  else acc ++ [t]

/-- Embedding of the consolidation loop of
data_processor.extract_themes_from_results (theme_map insertion order equals
list order of the Python dict). -/
def consolidate_themes (themes : List Theme) : List Theme :=
  themes.foldl insertTheme []

/-- A theme dict as built by AnalysisOrchestrator._extract_themes_from_results
(no keywords; quotes are plain strings). -/
structure OrchTheme where
  name : String
  description : String
  quotes : List String
deriving DecidableEq

/-- Embedding of the duplicate removal in
AnalysisOrchestrator._extract_themes_from_results (orchestrator.py lines
422-429): only the first theme of each truthy name is kept; later same-named
themes are dropped entirely. -/
def orchestrator_unique_themes (themes : List OrchTheme) : List OrchTheme :=
  themes.foldl
    (fun acc t =>
      if !t.name.isEmpty && !(acc.any (fun u => u.name == t.name)) then acc ++ [t]
      else acc) []

/-- Counterexample for C4: in the AnalysisOrchestrator postprocessing (the
code path run by the analysis service), two themes named X with quotes [q1]
and [q2] do NOT merge to quotes [q1, q2]: the second theme is discarded and
the result keeps only [q1]. -/
theorem theme_consolidation_counterexample :
    orchestrator_unique_themes [⟨"X", "", ["q1"]⟩, ⟨"X", "", ["q2"]⟩] ≠
      [⟨"X", "", ["q1", "q2"]⟩] ∧
    orchestrator_unique_themes [⟨"X", "", ["q1"]⟩, ⟨"X", "", ["q2"]⟩] =
      [⟨"X", "", ["q1"]⟩] := by
  decide

/-- C4 (amended): in data_processor.extract_themes_from_results, merging any
two themes with the same name yields a single theme whose quotes are the
concatenation of both quote lists (duplicates allowed, order preserved) and
whose keywords carry exactly the set union of both keyword collections,
duplicate-free whenever the incoming theme has keywords; the orchestrator's
own _extract_themes_from_results instead keeps only the first theme per
name. -/
theorem consolidate_themes_merge_spec (t1 t2 : Theme) (h : t1.name = t2.name) :
    consolidate_themes [t1, t2] = [mergeTheme t1 t2] ∧
    (mergeTheme t1 t2).quotes = t1.quotes ++ t2.quotes ∧
    (mergeTheme t1 t2).keywords.toFinset = t1.keywords.toFinset ∪ t2.keywords.toFinset ∧
    (t2.keywords ≠ [] → (mergeTheme t1 t2).keywords.Nodup) ∧
    (mergeTheme t1 t2).name = t1.name := by
  have hbeq : (t1.name == t2.name) = true := by
    simp [h]
  refine ⟨?_, ?_, ?_, ?_, rfl⟩
  · simp [consolidate_themes, insertTheme, hbeq, h]
  · by_cases hq : t2.quotes.isEmpty
    · simp [mergeTheme, hq, List.isEmpty_iff.mp hq]
    · simp [mergeTheme, hq]
  · by_cases hk : t2.keywords.isEmpty
    · simp [mergeTheme, hk, List.isEmpty_iff.mp hk]
    · have hkw : (mergeTheme t1 t2).keywords = (t1.keywords ++ t2.keywords).dedup := by
        simp [mergeTheme, hk]
      rw [hkw]
      ext a
      simp [List.mem_dedup]
  · intro hk
    have hk' : t2.keywords.isEmpty = false := by
      simpa [List.isEmpty_iff] using hk
    simp [mergeTheme, hk', List.nodup_dedup]

/-- Witness for C4: the concrete spec instance: themes named X with quotes
[q1] and [q2] and keywords [a] and [a, b] consolidate to one theme whose
quotes are [q1, q2] and whose keyword set is the two-element set. -/
theorem consolidate_themes_merge_spec_witness :
    consolidate_themes
        [⟨"X", "d1", ["a"], [⟨"q1", none⟩]⟩, ⟨"X", "d2", ["a", "b"], [⟨"q2", none⟩]⟩] =
      [mergeTheme ⟨"X", "d1", ["a"], [⟨"q1", none⟩]⟩ ⟨"X", "d2", ["a", "b"], [⟨"q2", none⟩]⟩] ∧
    (mergeTheme ⟨"X", "d1", ["a"], [⟨"q1", none⟩]⟩
        ⟨"X", "d2", ["a", "b"], [⟨"q2", none⟩]⟩).quotes = [⟨"q1", none⟩, ⟨"q2", none⟩] ∧
    (mergeTheme ⟨"X", "d1", ["a"], [⟨"q1", none⟩]⟩
        ⟨"X", "d2", ["a", "b"], [⟨"q2", none⟩]⟩).keywords.toFinset =
      (["a"] : List String).toFinset ∪ (["a", "b"] : List String).toFinset ∧
    ((["a", "b"] : List String) ≠ [] →
      (mergeTheme ⟨"X", "d1", ["a"], [⟨"q1", none⟩]⟩
        ⟨"X", "d2", ["a", "b"], [⟨"q2", none⟩]⟩).keywords.Nodup) ∧
    (mergeTheme ⟨"X", "d1", ["a"], [⟨"q1", none⟩]⟩
        ⟨"X", "d2", ["a", "b"], [⟨"q2", none⟩]⟩).name = "X" :=
  consolidate_themes_merge_spec
    ⟨"X", "d1", ["a"], [⟨"q1", none⟩]⟩ ⟨"X", "d2", ["a", "b"], [⟨"q2", none⟩]⟩ rfl

/-! ### Parameter extraction fallback (src/services/param_extractor.py,
ParamExtractor.extract_with_fallback and _extract_simple_params) -/

/-- Python dict merge a updated by b (the spread merge of the source): keys
of a keep their order with values overridden by b, then new keys of b. -/
def dictMerge (a b : ParamMap) : ParamMap :=
  a.map (fun p => (p.1, ((b.lookup p.1).getD p.2))) ++
    b.filter (fun p => (a.lookup p.1).isNone)

/-- Embedding of ParamExtractor._extract_simple_params: when the defaults
carry a text key, map text to the first 5000 characters of the source; when
they carry a query key, map query to the first sentence truncated to 100
characters (the value type is String, so the isinstance guards hold). -/
def extract_simple_params (text : String) (defaults : ParamMap) : ParamMap :=
  (if (defaults.lookup "text").isSome then [("text", text.take 5000)] else []) ++
  (if (defaults.lookup "query").isSome then
      [("query", ((text.splitOn ".").headD text).take 100)] else [])

/-- Embedding of ParamExtractor.extract_with_fallback. The whole LLM
extraction path (self.extract with its provider fallback and retries) is
modelled by the llm oracle: ok carries a validated instance, error a raised
exception. The pydantic constructor schema(**kwargs) is modelled by validate:
some is a valid instance, none a ValidationError. The trailing
schema(**default_values) call of the source is outside the inner try, so its
ValidationError propagates: that is the final error case. -/
def extract_with_fallback (llm : Except String ParamMap) (text : String)
    (validate : ParamMap → Option ParamMap) (defaults : ParamMap) :
    Except String (ParamMap × Bool) :=
  match llm with
  | Except.ok params => Except.ok (params, true)
  | Except.error _ =>
    let simple_params := extract_simple_params text defaults
    let merged_params := dictMerge defaults simple_params
    match validate merged_params with
    | some inst => Except.ok (inst, false)
    | none =>
      match validate defaults with
      | some inst => Except.ok (inst, false)
      | none => Except.error "ValidationError"

/-- A target schema with a required field q and no default for it: the shape
of any tool input schema with a required field, used with empty defaults. -/
def requireQField (m : ParamMap) : Option ParamMap :=
  if (m.lookup "q").isSome then some m else none

/-- Counterexample for C3: with a schema requiring a field the defaults do
not supply (empty caller defaults) and a failing LLM extraction, the final
schema(**default_values) call raises a ValidationError to the caller instead
of returning a pair, refuting the universally quantified never-raises
claim. -/
theorem extract_with_fallback_counterexample :
    extract_with_fallback (Except.error "llm failed") "hello" requireQField [] =
      Except.error "ValidationError" := rfl

/-- C3 (amended): provided the caller-supplied defaults themselves validate
against the target schema, extract_with_fallback returns without raising:
either the LLM extraction succeeded and its validated instance is returned
with used_extraction = true, or every LLM attempt failed and the returned
params are the validated rule-based fields (text from the first 5000 source
characters, query from the first sentence truncated to 100 characters)
merged over the defaults, falling back to the defaults verbatim, with
used_extraction = false. -/
theorem extract_with_fallback_spec (llm : Except String ParamMap) (text : String)
    (validate : ParamMap → Option ParamMap) (defaults : ParamMap)
    (hdef : (validate defaults).isSome = true) :
    (∃ p, llm = Except.ok p ∧
      extract_with_fallback llm text validate defaults = Except.ok (p, true)) ∨
    (∃ e, llm = Except.error e ∧
      extract_with_fallback llm text validate defaults =
        Except.ok
          (((validate (dictMerge defaults (extract_simple_params text defaults))).getD
            ((validate defaults).getD defaults)), false)) := by
  cases llm with
  | ok p => exact Or.inl ⟨p, rfl, rfl⟩
  | error e =>
    refine Or.inr ⟨e, rfl, ?_⟩
    cases hm : validate (dictMerge defaults (extract_simple_params text defaults)) with
    | some inst => simp [extract_with_fallback, hm]
    | none =>
      cases hd : validate defaults with
      | some inst => simp [extract_with_fallback, hm, hd]
      | none => rw [hd] at hdef; simp at hdef

/-- Witness for C3: LLM extraction fails on a schema requiring a text field
with defaults supplying one: the rule-based fallback returns the first 5000
characters of the source under the text key, with used_extraction false. -/
theorem extract_with_fallback_spec_witness :
    (∃ p, (Except.error "boom" : Except String ParamMap) = Except.ok p ∧
      extract_with_fallback (Except.error "boom") "abc"
        (fun (m : ParamMap) => if (m.lookup "text").isSome then some m else none) [("text", "d")] =
        Except.ok (p, true)) ∨
    (∃ e, (Except.error "boom" : Except String ParamMap) = Except.error e ∧
      extract_with_fallback (Except.error "boom") "abc"
        (fun (m : ParamMap) => if (m.lookup "text").isSome then some m else none) [("text", "d")] =
        Except.ok
          ((((fun (m : ParamMap) => if (m.lookup "text").isSome then some m else none)
              (dictMerge [("text", "d")] (extract_simple_params "abc" [("text", "d")]))).getD
            ((((fun (m : ParamMap) => if (m.lookup "text").isSome then some m else none)
              [("text", "d")]).getD [("text", "d")]))), false)) :=
  extract_with_fallback_spec (Except.error "boom") "abc"
    (fun (m : ParamMap) => if (m.lookup "text").isSome then some m else none) [("text", "d")] (by decide)

/-! ### Similarity search degradation (src/utils/vector_store.py,
VectorStore.similarity_search, lines 194-255) -/

/-- A row of the primary pgvector query (id, text, metadata, similarity). -/
structure VectorRow where
  id : Nat
  text : String
  metadata : Option ParamMap
  similarity : ℚ
deriving DecidableEq

/-- A row of the fulltext fallback query (no similarity column). -/
structure FulltextRow where
  id : Nat
  text : String
  metadata : Option ParamMap
deriving DecidableEq

/-- A document record returned by similarity_search. -/
structure SearchDoc where
  id : Nat
  text : String
  metadata : ParamMap
  score : ℚ
deriving DecidableEq

/-- Embedding of VectorStore.similarity_search from the first try onward: the
primary oracle is the pgvector query outcome (ok rows or raised exception),
the fallback oracle the fulltext query outcome. Fallback rows get the fixed
placeholder score 1/2; a double failure returns the plain empty list. -/
def similarity_search (primary : Except String (List VectorRow))
    (fallback : Except String (List FulltextRow)) : List SearchDoc :=
  match primary with
  | Except.ok rows => rows.map (fun r => ⟨r.id, r.text, r.metadata.getD [], r.similarity⟩)
  | Except.error _ =>
    match fallback with
    | Except.ok rows => rows.map (fun r => ⟨r.id, r.text, r.metadata.getD [], 1/2⟩)
    | Except.error _ => []

/-- Whether any returned record carries an error marker in its metadata (the
only place an error field could live in the returned row shape). -/
def hasErrorField (docs : List SearchDoc) : Bool :=
  docs.any (fun d => (d.metadata.lookup "error").isSome)

/-- Counterexample for C6: when both the vector search and the fulltext
fallback fail, similarity_search returns the plain empty list with no error
field anywhere in the result, contradicting the claimed explicit error
field. -/
theorem similarity_search_counterexample :
    similarity_search (Except.error "pgvector failed") (Except.error "fulltext failed") =
      ([] : List SearchDoc) ∧
    hasErrorField
      (similarity_search (Except.error "pgvector failed") (Except.error "fulltext failed")) =
      false := by
  constructor <;> rfl

/-- C6 (amended): when the vector similarity query fails, the fulltext
fallback result is returned with every score equal to the fixed placeholder
1/2; when the fallback also fails the result is the plain empty list (no
error field); in both cases the function returns instead of raising. -/
theorem similarity_search_degradation_spec (e : String)
    (fallback : Except String (List FulltextRow)) :
    (∀ rows, fallback = Except.ok rows →
      ∀ d ∈ similarity_search (Except.error e) fallback, d.score = 1/2) ∧
    (∀ e2, fallback = Except.error e2 →
      similarity_search (Except.error e) fallback = []) := by
  constructor
  · intro rows hrows d hd
    subst hrows
    simp only [similarity_search, List.mem_map] at hd
    obtain ⟨r, _, hr⟩ := hd
    rw [← hr]
  · intro e2 he2
    subst he2
    rfl

/-- Witness for C6: a failing vector query with one fulltext row yields that
row scored exactly 1/2, and a double failure yields the empty list. -/
theorem similarity_search_degradation_spec_witness :
    (∀ rows, (Except.ok [(⟨7, "doc", none⟩ : FulltextRow)] :
        Except String (List FulltextRow)) = Except.ok rows →
      ∀ d ∈ similarity_search (Except.error "down")
        (Except.ok [(⟨7, "doc", none⟩ : FulltextRow)]), d.score = 1/2) ∧
    (∀ e2, (Except.ok [(⟨7, "doc", none⟩ : FulltextRow)] :
        Except String (List FulltextRow)) = Except.error e2 →
      similarity_search (Except.error "down")
        (Except.ok [(⟨7, "doc", none⟩ : FulltextRow)]) = []) :=
  similarity_search_degradation_spec "down" (Except.ok [⟨7, "doc", none⟩])

/-! ### Memory tag preservation (src/utils/vector_store.py, the per-row tag
logic shared by fetch_memories lines 327-342 and get_recent_memories lines
445-460) -/

/-- Python truthiness of the tag column (NULL and the empty string are
falsy). -/
def pyTruthyTag : Option String → Bool
  | none => false
  | some s => !s.isEmpty

/-- Outcome of the per-row tag handling: the tag put on the returned memory
dict (none when no tag key is set), whether the LLM classifier ran, and the
tag left persisted in the database after the row is processed. -/
structure TagDecision where
  memTag : Option String
  classifierRan : Bool
  persistedTag : Option String
deriving DecidableEq

/-- Embedding of the row tag logic shared by fetch_memories and
get_recent_memories: if the row has a truthy tag and tagging was not
requested, reuse it; otherwise, if tagging was requested, classify with the
LLM (classify is its returned label) and persist it via UPDATE; otherwise
leave the memory untagged and the database row untouched. -/
def resolve_memory_tag (rowTag : Option String) (tag_memories : Bool)
    (classify : String) : TagDecision :=
  if pyTruthyTag rowTag && !tag_memories then ⟨rowTag, false, rowTag⟩
  else if tag_memories then ⟨some classify, true, some classify⟩
  else ⟨none, false, rowTag⟩

/-- C7 is violated by the code: a row already persisted with tag emotion,
retrieved with tag_memories = true (the default of both fetch_memories and
get_recent_memories), is re-classified (here the classifier answers idea)
and the persisted tag is overwritten, where the claim requires the stored
tag to be reused untouched with no classification run. -/
theorem resolve_memory_tag_retag_bug :
    resolve_memory_tag (some "emotion") true "idea" = ⟨some "idea", true, some "idea"⟩ ∧
    resolve_memory_tag (some "emotion") true "idea" ≠ ⟨some "emotion", false, some "emotion"⟩ := by
  refine ⟨rfl, ?_⟩
  decide

/-! ### Sentiment analysis routing (src/agents/tools/sentiment_analysis.py,
SentimentAnalyzer.analyze and the three provider adapters) -/

/-- The result dict of sentiment analysis: label, confidence, and the error
key that only the last-resort fallback sets. -/
structure SentimentResult where
  sentiment : String
  confidence : ℚ
  error : Option String
deriving DecidableEq

/-- The three labels the analyzer is specified to emit. -/
def allowedSentiments : List String := ["positive", "negative", "neutral"]

/-- Embedding of _analyze_openai: the LLM round trip and JSON parse are the
raw oracle (error covers network failures, bad JSON and missing keys); an ok
payload is the parsed (sentiment, confidence) pair, which the source then
coerces to an allowed label and clamps to the unit interval. -/
def analyze_openai (raw : Except String (String × ℚ)) : Except String SentimentResult :=
  match raw with
  | Except.error e => Except.error e
  | Except.ok (s, c) =>
    Except.ok ⟨if s ∈ allowedSentiments then s else "neutral", min 1 (max 0 c), none⟩

/-- The sentiment_mapping dict of _analyze_huggingface with its neutral
default. -/
def hfMapSentiment (label : String) : String :=
  if label == "positive" then "positive"
  else if label == "negative" then "negative"
  else if label == "neutral" then "neutral"
  else if label == "joy" then "positive"
  else if label == "happiness" then "positive"
  else if label == "sadness" then "negative"
  else if label == "anger" then "negative"
  else if label == "fear" then "negative"
  else if label == "disgust" then "negative"
  else if label == "surprise" then "neutral"
  else "neutral"

/-- Embedding of _analyze_huggingface: the HTTP call is the raw oracle; an ok
payload is the label/score list. The source scans for the highest score
starting from (neutral, 0.0) with the label lowercased, maps it through
sentiment_mapping, and answers (neutral, 0.5) on an unexpected (empty)
response shape. -/
def analyze_huggingface (raw : Except String (List (String × ℚ))) :
    Except String SentimentResult :=
  match raw with
  | Except.error e => Except.error e
  | Except.ok [] => Except.ok ⟨"neutral", 1/2, none⟩
  | Except.ok (it :: its) =>
    let best := (it :: its).foldl
      (fun acc p => if p.2 > acc.2 then (pyLower p.1, p.2) else acc) ("neutral", 0)
    Except.ok ⟨hfMapSentiment best.1, best.2, none⟩

/-- Embedding of _analyze_symbl: the HTTP call is the raw oracle; an ok
payload is the polarity score when the response carried a sentiment key
(none answers the unexpected-format fallback (neutral, 0.5)). The source
thresholds the score at plus and minus 0.3 and rescales it to a clamped
confidence. -/
def analyze_symbl (raw : Except String (Option ℚ)) : Except String SentimentResult :=
  match raw with
  | Except.error e => Except.error e
  | Except.ok none => Except.ok ⟨"neutral", 1/2, none⟩
  | Except.ok (some score) =>
    let s := if score > 3/10 then "positive"
             else if score < -(3/10 : ℚ) then "negative" else "neutral"
    Except.ok ⟨s, min 1 (max 0 ((|score| + 3/10) / (13/10))), none⟩

/-- Python len(text.split()): number of whitespace-separated words. -/
def pyWordCount (text : String) : Nat :=
  ((text.split Char.isWhitespace).filter (fun w => !w.isEmpty)).length

/-- The provider routing of SentimentAnalyzer.analyze up to the outer except
handler: hybrid routes short texts to symbl (when a key is configured, else
huggingface) with an inner fallback to openai, long texts to openai; the
symbl and huggingface providers are used only when their keys are set;
everything else defaults to openai. -/
def routePrimary (provider : String) (hasSymbl hasHF : Bool) (text : String)
    (symblRaw : Except String (Option ℚ)) (hfRaw : Except String (List (String × ℚ)))
    (openaiRaw : Except String (String × ℚ)) : Except String SentimentResult :=
  if provider == "hybrid" then
    if pyWordCount text < 15 then
      match (if hasSymbl then analyze_symbl symblRaw else analyze_huggingface hfRaw) with
      | Except.ok r => Except.ok r
      | Except.error _ => analyze_openai openaiRaw
    else analyze_openai openaiRaw
  else if provider == "symbl" && hasSymbl then analyze_symbl symblRaw
  else if provider == "huggingface" && hasHF then analyze_huggingface hfRaw
  else analyze_openai openaiRaw

/-- Embedding of SentimentAnalyzer.analyze: the primary route result, or on
exception one more openai attempt, or the fixed neutral result carrying the
first exception text in its error field. -/
def analyze (provider : String) (hasSymbl hasHF : Bool) (text : String)
    (symblRaw : Except String (Option ℚ)) (hfRaw : Except String (List (String × ℚ)))
    (openaiRaw : Except String (String × ℚ)) : SentimentResult :=
  match routePrimary provider hasSymbl hasHF text symblRaw hfRaw openaiRaw with
  | Except.ok r => r
  | Except.error e =>
    match analyze_openai openaiRaw with
    | Except.ok r => r
    | Except.error _ => ⟨"neutral", 0, some e⟩

theorem hfMapSentiment_mem (label : String) : hfMapSentiment label ∈ allowedSentiments := by
  unfold hfMapSentiment
  split_ifs <;> decide

theorem analyze_openai_ok_mem (raw : Except String (String × ℚ)) (r : SentimentResult)
    (h : analyze_openai raw = Except.ok r) : r.sentiment ∈ allowedSentiments := by
  cases raw with
  | error e => simp [analyze_openai] at h
  | ok p =>
    obtain ⟨s, c⟩ := p
    simp only [analyze_openai] at h
    cases h
    show (if s ∈ allowedSentiments then s else "neutral") ∈ allowedSentiments
    by_cases hs : s ∈ allowedSentiments
    · rwa [if_pos hs]
    · rw [if_neg hs]; decide

theorem analyze_huggingface_ok_mem (raw : Except String (List (String × ℚ)))
    (r : SentimentResult) (h : analyze_huggingface raw = Except.ok r) :
    r.sentiment ∈ allowedSentiments := by
  cases raw with
  | error e => simp [analyze_huggingface] at h
  | ok items =>
    cases items with
    | nil => cases h; decide
    | cons it its =>
      simp only [analyze_huggingface] at h
      cases h
      exact hfMapSentiment_mem _

theorem analyze_symbl_ok_mem (raw : Except String (Option ℚ)) (r : SentimentResult)
    (h : analyze_symbl raw = Except.ok r) : r.sentiment ∈ allowedSentiments := by
  cases raw with
  | error e => simp [analyze_symbl] at h
  | ok sc =>
    cases sc with
    | none => cases h; decide
    | some score =>
      simp only [analyze_symbl] at h
      cases h
      show (if score > 3/10 then "positive"
            else if score < -(3/10 : ℚ) then "negative" else "neutral") ∈ allowedSentiments
      split_ifs <;> decide

theorem routePrimary_ok_mem (provider : String) (hasSymbl hasHF : Bool) (text : String)
    (symblRaw : Except String (Option ℚ)) (hfRaw : Except String (List (String × ℚ)))
    (openaiRaw : Except String (String × ℚ)) (r : SentimentResult)
    (h : routePrimary provider hasSymbl hasHF text symblRaw hfRaw openaiRaw = Except.ok r) :
    r.sentiment ∈ allowedSentiments := by
  unfold routePrimary at h
  by_cases hp : (provider == "hybrid") = true
  · rw [if_pos hp] at h
    by_cases hl : pyWordCount text < 15
    · rw [if_pos hl] at h
      cases hsy : (if hasSymbl then analyze_symbl symblRaw
          else analyze_huggingface hfRaw) with
      | ok r' =>
        rw [hsy] at h
        cases h
        cases hk : hasSymbl with
        | true => rw [hk] at hsy; rw [if_pos rfl] at hsy; exact analyze_symbl_ok_mem _ _ hsy
        | false =>
          rw [hk] at hsy
          rw [if_neg (by simp)] at hsy
          exact analyze_huggingface_ok_mem _ _ hsy
      | error e =>
        rw [hsy] at h
        exact analyze_openai_ok_mem _ _ h
    · rw [if_neg hl] at h
      exact analyze_openai_ok_mem _ _ h
  · rw [if_neg hp] at h
    by_cases hs : (provider == "symbl" && hasSymbl) = true
    · rw [if_pos hs] at h
      exact analyze_symbl_ok_mem _ _ h
    · rw [if_neg hs] at h
      by_cases hh : (provider == "huggingface" && hasHF) = true
      · rw [if_pos hh] at h
        exact analyze_huggingface_ok_mem _ _ h
      · rw [if_neg hh] at h
        exact analyze_openai_ok_mem _ _ h

theorem routePrimary_error_of_all_failed (provider : String) (hasSymbl hasHF : Bool)
    (text : String) (es eh eo : String) :
    ∃ e, routePrimary provider hasSymbl hasHF text
      (Except.error es) (Except.error eh) (Except.error eo) = Except.error e := by
  unfold routePrimary
  by_cases hp : (provider == "hybrid") = true
  · rw [if_pos hp]
    by_cases hl : pyWordCount text < 15
    · rw [if_pos hl]
      cases hk : hasSymbl with
      | true => rw [if_pos rfl]; exact ⟨eo, rfl⟩
      | false => rw [if_neg (by simp)]; exact ⟨eo, rfl⟩
    · rw [if_neg hl]
      exact ⟨eo, rfl⟩
  · rw [if_neg hp]
    by_cases hs : (provider == "symbl" && hasSymbl) = true
    · rw [if_pos hs]
      exact ⟨es, rfl⟩
    · rw [if_neg hs]
      by_cases hh : (provider == "huggingface" && hasHF) = true
      · rw [if_pos hh]
        exact ⟨eh, rfl⟩
      · rw [if_neg hh]
        exact ⟨eo, rfl⟩

/-- C9: SentimentAnalyzer.analyze never raises: every outcome carries a
sentiment label among positive, negative, neutral (and a confidence value);
and when the configured provider and every fallback provider fail, the
result is the fixed neutral record with confidence 0 and an error field
set. -/
theorem analyze_sentiment_spec (provider : String) (hasSymbl hasHF : Bool) (text : String)
    (symblRaw : Except String (Option ℚ)) (hfRaw : Except String (List (String × ℚ)))
    (openaiRaw : Except String (String × ℚ)) :
    (analyze provider hasSymbl hasHF text symblRaw hfRaw openaiRaw).sentiment ∈
      allowedSentiments ∧
    (∀ es eh eo, symblRaw = Except.error es → hfRaw = Except.error eh →
      openaiRaw = Except.error eo →
      (analyze provider hasSymbl hasHF text symblRaw hfRaw openaiRaw).sentiment = "neutral" ∧
      (analyze provider hasSymbl hasHF text symblRaw hfRaw openaiRaw).confidence = 0 ∧
      (analyze provider hasSymbl hasHF text symblRaw hfRaw openaiRaw).error.isSome = true) := by
  constructor
  · cases hroute : routePrimary provider hasSymbl hasHF text symblRaw hfRaw openaiRaw with
    | ok r =>
      simp only [analyze, hroute]
      exact routePrimary_ok_mem _ _ _ _ _ _ _ _ hroute
    | error e =>
      simp only [analyze, hroute]
      cases hoa : analyze_openai openaiRaw with
      | ok r => exact analyze_openai_ok_mem _ _ hoa
      | error e2 =>
        show "neutral" ∈ allowedSentiments
        decide
  · intro es eh eo hs hh ho
    subst hs hh ho
    obtain ⟨e, he⟩ := routePrimary_error_of_all_failed provider hasSymbl hasHF text es eh eo
    have hval : analyze provider hasSymbl hasHF text
        (Except.error es) (Except.error eh) (Except.error eo) = ⟨"neutral", 0, some e⟩ := by
      unfold analyze
      rw [he]
      rfl
    rw [hval]
    exact ⟨rfl, rfl, rfl⟩

/-- Witness for C9: with the hybrid provider and all three provider calls
failing, analyze returns the neutral label with confidence 0 and an error
field, and the label is among the allowed three. -/
theorem analyze_sentiment_spec_witness :
    (analyze "hybrid" true true "short text" (Except.error "s") (Except.error "h")
      (Except.error "o")).sentiment ∈ allowedSentiments ∧
    ((analyze "hybrid" true true "short text" (Except.error "s") (Except.error "h")
        (Except.error "o")).sentiment = "neutral" ∧
      (analyze "hybrid" true true "short text" (Except.error "s") (Except.error "h")
        (Except.error "o")).confidence = 0 ∧
      (analyze "hybrid" true true "short text" (Except.error "s") (Except.error "h")
        (Except.error "o")).error.isSome = true) :=
  ⟨(analyze_sentiment_spec "hybrid" true true "short text" (Except.error "s")
      (Except.error "h") (Except.error "o")).1,
    (analyze_sentiment_spec "hybrid" true true "short text" (Except.error "s")
      (Except.error "h") (Except.error "o")).2 "s" "h" "o" rfl rfl rfl⟩

end QualAgent
